import Mathlib

set_option maxRecDepth 8000

/-!
# Verification of the PZEM-004T MQTT telemetry bridge

Shallow embedding of src/mqtt-esp8266.cpp. The sketch reads six electrical
measurements from a PZEM-004T sensor, sanitizes not-a-number values to 0,
serializes them as JSON and publishes them over MQTT; it also subscribes to a
command topic and handles a single command shape (an energy reset).

Modelling conventions:
- C floats are modelled by `FVal`: either the not-a-number sentinel or a
  rational value. The only float operation the sketch performs is the
  `isnan(v) ? 0 : v` sanitization, which this model captures exactly.
- The external transport (PubSubClient) is modelled by `ClientState` (the
  connected flag observed through client.connected(), plus whether the command
  subscription is active) and by `clientPublish`, which follows the library's
  documented contract: publish requires a connected session and is a failing
  no-op otherwise.
- The external JSON library (ArduinoJson) is modelled by a standard recursive
  descent JSON parser (`pValue`) plus the static-document capacity accounting
  of `StaticJsonDocument` on a 32-bit target (`memUsage`: 16 bytes per
  collection slot, copied strings cost length + 1). Trailing input after a
  complete document is accepted, as ArduinoJson does. Relaxed non-standard
  inputs (unquoted keys, single quotes) and duplicate-string pooling are not
  modelled; no claim depends on them.
- Effects (connect attempts, subscribe, delays, sensor reset, publishes) are
  recorded as an explicit event trace `List Ev`. The blocking WiFi
  establishment of setup_wifi() is the event `Ev.ensureLink`, emitted by
  `setupTrace` (setup(), lines 76-81) and nowhere else.
- The while-loop of reconnect() (lines 61-74) is modelled by recursion over
  the list of connect-attempt outcomes the broker would give; an outcome list
  exhausted without a success means the loop is still running, rendered as
  `none`.
-/

/-- Model of an ArduinoJson document value. Numbers are kept as a decimal
mantissa and a power-of-ten exponent, exactly as parsed. -/
inductive Json where
  | jnull : Json
  | jbool : Bool → Json
  | jnum : Int → Int → Json
  | jstr : String → Json
  | jarr : List Json → Json
  | jobj : List (String × Json) → Json

/-- Event trace entries for the observable effects of the sketch. -/
inductive Ev where
  | ensureLink : Ev
  | connAttempt : Bool → Ev
  | subscribe : Ev
  | delay : Nat → Ev
  | resetEnergy : Ev
  | publish : String → String → Bool → Ev
deriving DecidableEq

/-- State of the PubSubClient session as observed by the sketch:
client.connected(), and whether the command-topic subscription is active. -/
structure ClientState where
  connected : Bool
  subscribed : Bool
deriving DecidableEq

def disconnectedSt : ClientState := ⟨false, false⟩

def connectedSt : ClientState := ⟨true, true⟩

/-- Character constants used by the JSON grammar. -/
def quoteChar : Char := Char.ofNat 34

def backslashChar : Char := Char.ofNat 92

def lbraceChar : Char := Char.ofNat 123

def rbraceChar : Char := Char.ofNat 125

def lbrackChar : Char := Char.ofNat 91

def rbrackChar : Char := Char.ofNat 93

/-- Consume leading JSON whitespace. -/
def skipWs : List Char → List Char
  | [] => []
  | c :: rest =>
    if c = ' ' ∨ c = '\t' ∨ c = '\n' ∨ c = '\r' then skipWs rest else c :: rest

/-- Translation of a single-character JSON escape. -/
def escChar (c : Char) : Option Char :=
  if c = quoteChar then some quoteChar
  else if c = backslashChar then some backslashChar
  else if c = '/' then some '/'
  else if c = 'b' then some (Char.ofNat 8)
  else if c = 'f' then some (Char.ofNat 12)
  else if c = 'n' then some '\n'
  else if c = 'r' then some '\r'
  else if c = 't' then some '\t'
  else none

/-- Value of a hexadecimal digit. -/
def hexVal (c : Char) : Option Nat :=
  if '0' ≤ c ∧ c ≤ '9' then some (c.toNat - 48)
  else if 'a' ≤ c ∧ c ≤ 'f' then some (c.toNat - 87)
  else if 'A' ≤ c ∧ c ≤ 'F' then some (c.toNat - 55)
  else none

def strCons (c : Char) (p : String × List Char) : String × List Char :=
  (String.mk (c :: p.1.data), p.2)

/-- Body of a JSON string, after the opening quote has been consumed. The fuel
only bounds recursion depth; it is instantiated large enough to never run out
on the given input. -/
def pString : Nat → List Char → Option (String × List Char)
  | 0, _ => none
  | _ + 1, [] => none
  | fuel + 1, c :: rest =>
    if c = quoteChar then some ("", rest)
    else if c = backslashChar then
      match rest with
      | [] => none
      | e :: rest2 =>
        if e = 'u' then
          match rest2 with
          | h1 :: h2 :: h3 :: h4 :: rest3 =>
            match hexVal h1, hexVal h2, hexVal h3, hexVal h4 with
            | some a, some b, some c2, some d =>
              (pString fuel rest3).map
                (strCons (Char.ofNat (((a * 16 + b) * 16 + c2) * 16 + d)))
            | _, _, _, _ => none
          | _ => none
        else
          match escChar e with
          | some ch => (pString fuel rest2).map (strCons ch)
          | none => none
    else (pString fuel rest).map (strCons c)

def isDigitCh (c : Char) : Bool := decide ('0' ≤ c ∧ c ≤ '9')

/-- Longest digit run at the head of the input. -/
def takeDigits : List Char → List Char × List Char
  | [] => ([], [])
  | c :: rest =>
    if isDigitCh c then
      let p := takeDigits rest
      (c :: p.1, p.2)
    else ([], c :: rest)

def natOfDigits (ds : List Char) : Nat :=
  ds.foldl (fun acc c => acc * 10 + (c.toNat - 48)) 0

/-- JSON number: optional sign, integer part, optional fraction, optional
exponent. Result is mantissa and power-of-ten exponent. -/
def pNumber (l : List Char) : Option (Json × List Char) :=
  let sp : Bool × List Char :=
    match l with
    | c :: rest => if c = '-' then (true, rest) else (false, c :: rest)
    | [] => (false, [])
  let ipp := takeDigits sp.2
  if ipp.1 = [] then none
  else
    let fpp : List Char × List Char :=
      match ipp.2 with
      | c :: rest =>
        if c = '.' then
          let q := takeDigits rest
          if q.1 = [] then ([], c :: rest) else (q.1, q.2)
        else ([], c :: rest)
      | [] => ([], [])
    let epp : Int × List Char :=
      match fpp.2 with
      | c :: rest =>
        if c = 'e' ∨ c = 'E' then
          let sg : Int × List Char :=
            match rest with
            | d :: r3 =>
              if d = '-' then (-1, r3)
              else if d = '+' then (1, r3)
              else (1, d :: r3)
            | [] => (1, [])
          let q := takeDigits sg.2
          if q.1 = [] then (0, c :: rest)
          else (sg.1 * (natOfDigits q.1 : Int), q.2)
        else (0, c :: rest)
      | [] => (0, [])
    let mantissa : Int :=
      (if sp.1 then -1 else 1) * (natOfDigits (ipp.1 ++ fpp.1) : Int)
    some (Json.jnum mantissa (epp.1 - (fpp.1.length : Int)), epp.2)

mutual

/-- JSON value. Fuel bounds the recursion depth and is instantiated so it can
never be exhausted on the input (each level consumes at least one character). -/
def pValue : Nat → List Char → Option (Json × List Char)
  | 0, _ => none
  | fuel + 1, l =>
    match skipWs l with
    | [] => none
    | c :: rest =>
      if c = lbraceChar then
        match skipWs rest with
        | d :: rest2 =>
          if d = rbraceChar then some (Json.jobj [], rest2)
          else (pMembers fuel (d :: rest2)).map (fun p => (Json.jobj p.1, p.2))
        | [] => none
      else if c = lbrackChar then
        match skipWs rest with
        | d :: rest2 =>
          if d = rbrackChar then some (Json.jarr [], rest2)
          else (pElems fuel (d :: rest2)).map (fun p => (Json.jarr p.1, p.2))
        | [] => none
      else if c = quoteChar then
        (pString (fuel + 1) rest).map (fun p => (Json.jstr p.1, p.2))
      else if c = 't' then
        match rest with
        | 'r' :: 'u' :: 'e' :: rest2 => some (Json.jbool true, rest2)
        | _ => none
      else if c = 'f' then
        match rest with
        | 'a' :: 'l' :: 's' :: 'e' :: rest2 => some (Json.jbool false, rest2)
        | _ => none
      else if c = 'n' then
        match rest with
        | 'u' :: 'l' :: 'l' :: rest2 => some (Json.jnull, rest2)
        | _ => none
      else pNumber (c :: rest)

/-- Non-empty member list of a JSON object, up to and including the closing
brace. -/
def pMembers : Nat → List Char → Option (List (String × Json) × List Char)
  | 0, _ => none
  | fuel + 1, l =>
    match skipWs l with
    | c :: rest =>
      if c = quoteChar then
        match pString (fuel + 1) rest with
        | some (key, rest2) =>
          match skipWs rest2 with
          | d :: rest3 =>
            if d = ':' then
              match pValue fuel rest3 with
              | some (v, rest4) =>
                match skipWs rest4 with
                | e :: rest5 =>
                  if e = ',' then
                    (pMembers fuel rest5).map (fun p => ((key, v) :: p.1, p.2))
                  else if e = rbraceChar then some ([(key, v)], rest5)
                  else none
                | [] => none
              | none => none
            else none
          | [] => none
        | none => none
      else none
    | [] => none

/-- Non-empty element list of a JSON array, up to and including the closing
bracket. -/
def pElems : Nat → List Char → Option (List Json × List Char)
  | 0, _ => none
  | fuel + 1, l =>
    match pValue fuel l with
    | some (v, rest) =>
      match skipWs rest with
      | e :: rest2 =>
        if e = ',' then (pElems fuel rest2).map (fun p => (v :: p.1, p.2))
        else if e = rbrackChar then some ([v], rest2)
        else none
      | [] => none
    | none => none

end

/-- Model of deserializeJson's grammar: parse one complete JSON document from
the front of the input; trailing content is accepted, as in ArduinoJson. -/
def parseJson (s : String) : Option Json :=
  (pValue (2 * s.length + 4) s.data).map Prod.fst

mutual

/-- Memory-pool accounting of a StaticJsonDocument on a 32-bit target: each
object member or array element occupies one 16-byte slot, and every string
(key or value) copied from a non-const input costs its length plus one. -/
def memUsage : Json → Nat
  | .jnull => 0
  | .jbool _ => 0
  | .jnum _ _ => 0
  | .jstr s => s.length + 1
  | .jarr xs => memUsageArr xs
  | .jobj kvs => memUsageObj kvs

def memUsageArr : List Json → Nat
  | [] => 0
  | v :: rest => 16 + memUsage v + memUsageArr rest

def memUsageObj : List (String × Json) → Nat
  | [] => 0
  | kv :: rest => 16 + kv.1.length + 1 + memUsage kv.2 + memUsageObj rest

end

/-- Capacity of the StaticJsonDocument used for inbound commands (line 50). -/
def docCapacity : Nat := 128

/-- Model of deserializeJson(doc, msg) with StaticJsonDocument of capacity 128:
a document whose pool usage exceeds the capacity fails with NoMemory. -/
def deserialize128 (s : String) : Option Json :=
  match parseJson s with
  | some j => if memUsage j ≤ docCapacity then some j else none
  | none => none

/-- Topic the telemetry and the reset acknowledgment are published on
(line 14). -/
def mqtt_pub_topic : String := "testtopic/pzem004t"

/-- Topic the command subscription listens on (line 15). -/
def mqtt_sub_topic : String := "testtopic/pzem004t/cmd"

/-- Fixed acknowledgment payload of line 56. -/
def ackPayload : String := "\x7b\"status\":\"energy reset\"\x7d"

/-- Key checked by the command handler at line 53. -/
def resetKey : String := "reset"

/-- Member lookup in a parsed object, first match wins (as in ArduinoJson). -/
def lookupMember : List (String × Json) → String → Option Json
  | [], _ => none
  | kv :: rest, k => if kv.1 = k then some kv.2 else lookupMember rest k

/-- ArduinoJson comparison of a variant against the bool literal true: only a
stored boolean true compares equal. -/
def isTrueBool : Json → Bool
  | .jbool b => b
  | _ => false

/-- Condition of line 53: doc.containsKey of the reset key, and the member
compares equal to true. On a non-object document both checks fail. -/
def docResetIsTrue : Json → Bool
  | .jobj kvs =>
    match lookupMember kvs resetKey with
    | some v => isTrueBool v
    | none => false
  | _ => false

/-- Full decode condition of lines 50-53 on an inbound payload. -/
def isResetCmd (s : String) : Bool :=
  match deserialize128 s with
  | some d => docResetIsTrue d
  | none => false

/-- Model of PubSubClient.publish: requires a connected session; when not
connected it is a no-op that returns false. The emitted event records whether
the message actually went out to the broker. -/
def clientPublish (st : ClientState) (topic payload : String) : Bool × List Ev :=
  (st.connected, [Ev.publish topic payload st.connected])

/-- Messages that actually reached the broker in a trace: publish events whose
success flag is true. -/
def deliveredOf (evs : List Ev) : List (String × String) :=
  evs.filterMap (fun e =>
    match e with
    | Ev.publish t p true => some (t, p)
    | _ => none)

/-- Embedding of callback (lines 38-59): build the message string, parse it
with a 128-byte StaticJsonDocument, and when the document carries reset equal
to true, reset the sensor energy counter and publish the fixed acknowledgment.
Serial logging is not modelled. -/
def callback (st : ClientState) (payload : String) : List Ev :=
  match deserialize128 payload with
  | some d =>
    if docResetIsTrue d then
      Ev.resetEnergy :: (clientPublish st mqtt_pub_topic ackPayload).2
    else []
  | none => []

/-- Embedding of the while loop body of reconnect (lines 62-73) on the list of
connect-attempt outcomes the broker supplies: a failed attempt logs, delays
5000 ms and loops; a successful attempt subscribes the command topic in the
same arm and exits. An exhausted outcome list means the loop is still
spinning, rendered as none. -/
def reconnectLoop : List Bool → Option (ClientState × List Ev)
  | [] => none
  | ok :: rest =>
    if ok then some (connectedSt, [Ev.connAttempt true, Ev.subscribe])
    else
      (reconnectLoop rest).map
        (fun p => (p.1, Ev.connAttempt false :: Ev.delay 5000 :: p.2))

/-- Embedding of reconnect (lines 61-74): the while guard returns immediately
when the client is already connected, otherwise runs the retry loop. -/
def reconnect (st : ClientState) (outcomes : List Bool) :
    Option (ClientState × List Ev) :=
  if st.connected then some (st, []) else reconnectLoop outcomes

/-- Embedding of the session step of loop (line 84): reconnect only when the
client is not connected. -/
def ensureSession (st : ClientState) (outcomes : List Bool) :
    Option (ClientState × List Ev) :=
  if st.connected then some (st, []) else reconnect st outcomes

/-- Model of a C float as read from the PZEM sensor: the not-a-number sentinel
or a numeric value. -/
inductive FVal where
  | nan : FVal
  | num : ℚ → FVal
deriving DecidableEq

/-- Embedding of the sanitization expression isnan(v) ? 0 : v of
lines 97-102. -/
def sanitize : FVal → ℚ
  | .nan => 0
  | .num q => q

/-- One sensor snapshot as read at lines 88-93. -/
structure Reading where
  voltage : FVal
  current : FVal
  power : FVal
  energy : FVal
  frequency : FVal
  pf : FVal

/-- Sanitized wire-ready form of a Reading (the six doc fields of
lines 97-102). -/
structure Snapshot where
  voltage : ℚ
  current : ℚ
  power : ℚ
  energy : ℚ
  frequency : ℚ
  pf : ℚ
deriving DecidableEq

/-- Field-by-field sanitization of lines 97-102. -/
def buildSnapshot (r : Reading) : Snapshot :=
  ⟨sanitize r.voltage, sanitize r.current, sanitize r.power,
   sanitize r.energy, sanitize r.frequency, sanitize r.pf⟩

/-- JSON serialization of the telemetry document (lines 96-105), parametrized
by the number-to-text conversion of the JSON library (ArduinoJson renders a
binary32 float in at most 15 characters). -/
def telemetryPayload (numStr : ℚ → String) (s : Snapshot) : String :=
  "\x7b\"voltage\":" ++ numStr s.voltage ++
  ",\"current\":" ++ numStr s.current ++
  ",\"power\":" ++ numStr s.power ++
  ",\"energy\":" ++ numStr s.energy ++
  ",\"frequency\":" ++ numStr s.frequency ++
  ",\"pf\":" ++ numStr s.pf ++ "\x7d"

/-- Size of the char payload buffer of line 104. -/
def bufCapacity : Nat := 192

/-- Model of serializeJson(doc, buffer) into a fixed buffer: the output is
truncated so that it and its terminating NUL always fit; the buffer is never
overrun. -/
def serializeToBuf (cap : Nat) (s : String) : String :=
  if s.length + 1 ≤ cap then s else s.take (cap - 1)

/-- Trace of setup (lines 76-81): the blocking WiFi establishment of
setup_wifi runs exactly once here; setServer and setCallback are pure
configuration. -/
def setupTrace : List Ev := [Ev.ensureLink]

/-- Embedding of one iteration of loop (lines 83-114): ensure the session
(reconnect while not connected), service the inbound messages delivered since
the last tick via the callback (client.loop, line 85), read and sanitize the
six sensor fields, serialize them into the 192-byte buffer, publish, and
delay 5000 ms. A tick stuck forever inside reconnect is rendered as none. -/
def loopTick (numStr : ℚ → String) (st : ClientState) (outcomes : List Bool)
    (inbox : List String) (r : Reading) : Option (ClientState × List Ev) :=
  match ensureSession st outcomes with
  | none => none
  | some (st1, evs1) =>
    let evs2 := (inbox.map (fun m => callback st1 m)).flatten
    let payload := serializeToBuf bufCapacity (telemetryPayload numStr (buildSnapshot r))
    some (st1, evs1 ++ evs2 ++
      [Ev.publish mqtt_pub_topic payload st1.connected, Ev.delay 5000])

/-- Number of connect attempts recorded in a trace. -/
def attemptsIn (tr : List Ev) : Nat :=
  tr.countP (fun e =>
    match e with
    | Ev.connAttempt _ => true
    | _ => false)

/-- Recognizer for publish events in a trace. -/
def isPublishEv : Ev → Bool
  | Ev.publish _ _ _ => true
  | _ => false

/-- Scenario payload of the spec: a well-formed command whose reset field is
false. -/
def scenario3Payload : String := "\x7b\"reset\":false\x7d"

/-- Scenario payload of the spec: the valid reset command. -/
def scenario2Payload : String := "\x7b\"reset\":true\x7d"

/-- Scenario 1 reading of the spec: current is not-a-number, the other five
fields carry values. -/
def scenario1Reading : Reading :=
  ⟨FVal.num (2201 / 10), FVal.nan, FVal.num 10, FVal.num (26 / 5),
   FVal.num 50, FVal.num (49 / 50)⟩

/-- Expected sanitized snapshot for Scenario 1. -/
def scenario1Snapshot : Snapshot :=
  ⟨2201 / 10, 0, 10, 26 / 5, 50, 49 / 50⟩

/-- Degenerate number-to-text conversion used for concrete evaluations. -/
def numStr0 : ℚ → String := fun _ => "0"

/-- Telemetry payload produced under numStr0. -/
def zeroPayload : String :=
  "\x7b\"voltage\":0,\"current\":0,\"power\":0,\"energy\":0,\"frequency\":0,\"pf\":0\x7d"

/-- Padding string used to exceed the 128-byte document capacity. -/
def padStr : String := String.mk (List.replicate 90 'a')

/-- Key of the padding member of bigPayload. -/
def padKey : String := "pad"

/-- Oversized inbound payload: textually contains the reset command but its
parsed representation exceeds the 128-byte document capacity. -/
def bigPayload : String :=
  "\x7b\"reset\":true,\"pad\":\"" ++ padStr ++ "\"\x7d"

/-- Parse result of bigPayload. -/
def bigJson : Json :=
  Json.jobj [(resetKey, Json.jbool true), (padKey, Json.jstr padStr)]

/-! ## Helper lemmas -/

lemma reconnectLoop_replicate_false (n : Nat) :
    reconnectLoop (List.replicate n false) = none := by
  induction n with
  | zero => rfl
  | succ k ih => simp [List.replicate_succ, reconnectLoop, ih]

lemma reconnectLoop_success (n : Nat) (rest : List Bool) :
    reconnectLoop (List.replicate n false ++ true :: rest) =
      some (connectedSt,
        (List.replicate n [Ev.connAttempt false, Ev.delay 5000]).flatten ++
          [Ev.connAttempt true, Ev.subscribe]) := by
  induction n with
  | zero => simp [reconnectLoop]
  | succ k ih => simp [List.replicate_succ, reconnectLoop, ih]

lemma reconnectLoop_some :
    ∀ (outcomes : List Bool) (st' : ClientState) (tr : List Ev),
      reconnectLoop outcomes = some (st', tr) →
      st' = connectedSt ∧
        (∃ pre, tr = pre ++ [Ev.connAttempt true, Ev.subscribe]) ∧
        Ev.ensureLink ∉ tr ∧ Ev.resetEnergy ∉ tr := by
  intro outcomes
  induction outcomes with
  | nil =>
    intro st' tr h
    rw [show reconnectLoop [] = none from rfl] at h
    exact Option.noConfusion h
  | cons ok rest ih =>
    intro st' tr h
    cases ok with
    | true =>
      simp [reconnectLoop] at h
      obtain ⟨h1, h2⟩ := h
      subst h1; subst h2
      exact ⟨rfl, ⟨[], rfl⟩, by decide, by decide⟩
    | false =>
      simp only [reconnectLoop, Bool.false_eq_true, if_false] at h
      cases hr : reconnectLoop rest with
      | none => rw [hr] at h; exact Option.noConfusion h
      | some p =>
        obtain ⟨st1, tr1⟩ := p
        rw [hr] at h
        simp only [Option.map_some'] at h
        injection h with h2
        injection h2 with hst htr
        rcases ih st1 tr1 hr with ⟨hc, ⟨pre, hpre⟩, hnl, hnr⟩
        subst hst
        refine ⟨hc, ⟨Ev.connAttempt false :: Ev.delay 5000 :: pre, ?_⟩, ?_, ?_⟩
        · rw [← htr, hpre]; rfl
        · rw [← htr]
          intro hmem
          simp only [List.mem_cons] at hmem
          rcases hmem with hm | hm | hm
          · exact Ev.noConfusion hm
          · exact Ev.noConfusion hm
          · exact hnl hm
        · rw [← htr]
          intro hmem
          simp only [List.mem_cons] at hmem
          rcases hmem with hm | hm | hm
          · exact Ev.noConfusion hm
          · exact Ev.noConfusion hm
          · exact hnr hm

lemma ensureSession_connected (st : ClientState) (outcomes : List Bool)
    (h : st.connected = true) : ensureSession st outcomes = some (st, []) := by
  simp [ensureSession, h]

lemma ensureSession_disconnected (st : ClientState) (outcomes : List Bool)
    (h : st.connected = false) :
    ensureSession st outcomes = reconnectLoop outcomes := by
  simp [ensureSession, reconnect, h]

lemma ensureSession_some (st : ClientState) (outcomes : List Bool)
    (st' : ClientState) (tr : List Ev)
    (h : ensureSession st outcomes = some (st', tr)) :
    (st.connected = true ∧ st' = st ∧ tr = []) ∨
    (st.connected = false ∧ st' = connectedSt ∧
      (∃ pre, tr = pre ++ [Ev.connAttempt true, Ev.subscribe]) ∧
      Ev.ensureLink ∉ tr ∧ Ev.resetEnergy ∉ tr) := by
  cases hc : st.connected with
  | true =>
    left
    rw [ensureSession_connected st outcomes hc] at h
    injection h with h2
    injection h2 with ha hb
    exact ⟨rfl, ha.symm, hb.symm⟩
  | false =>
    right
    rw [ensureSession_disconnected st outcomes hc] at h
    obtain ⟨h1, h2, h3, h4⟩ := reconnectLoop_some outcomes st' tr h
    exact ⟨rfl, h1, h2, h3, h4⟩

lemma callback_shape (st : ClientState) (p : String) :
    callback st p = [] ∨
    callback st p =
      [Ev.resetEnergy, Ev.publish mqtt_pub_topic ackPayload st.connected] := by
  unfold callback
  cases hd : deserialize128 p with
  | none => exact Or.inl rfl
  | some d =>
    by_cases hb : docResetIsTrue d = true
    · right; simp [hb, clientPublish]
    · left; simp [hb]

lemma inboundEvents_mem (st : ClientState) (inbox : List String) (e : Ev)
    (he : e ∈ (inbox.map (fun m => callback st m)).flatten) :
    e = Ev.resetEnergy ∨
      e = Ev.publish mqtt_pub_topic ackPayload st.connected := by
  simp only [List.mem_flatten, List.mem_map] at he
  obtain ⟨l, ⟨m, _, hl⟩, hel⟩ := he
  subst hl
  rcases callback_shape st m with h | h <;> rw [h] at hel <;> simp at hel
  tauto

lemma loopTick_inv (numStr : ℚ → String) (st : ClientState)
    (outcomes : List Bool) (inbox : List String) (r : Reading)
    (st' : ClientState) (tr : List Ev)
    (h : loopTick numStr st outcomes inbox r = some (st', tr)) :
    ∃ evs1, ensureSession st outcomes = some (st', evs1) ∧
      tr = evs1 ++ (inbox.map (fun m => callback st' m)).flatten ++
        [Ev.publish mqtt_pub_topic
          (serializeToBuf bufCapacity (telemetryPayload numStr (buildSnapshot r)))
          st'.connected, Ev.delay 5000] := by
  unfold loopTick at h
  cases hes : ensureSession st outcomes with
  | none => rw [hes] at h; simp at h
  | some p =>
    rw [hes] at h
    obtain ⟨st1, evs1⟩ := p
    injection h with h2
    injection h2 with ha hb
    subst ha
    exact ⟨evs1, rfl, hb.symm⟩

lemma drop_last_two (pre : List Ev) (a b : Ev) :
    (pre ++ [a, b]).drop ((pre ++ [a, b]).length - 2) = [a, b] := by
  have hl : (pre ++ [a, b]).length - 2 = pre.length := by simp
  rw [hl]
  exact List.drop_left pre [a, b]

lemma serializeToBuf_id (s : String) (h : s.length + 1 ≤ bufCapacity) :
    serializeToBuf bufCapacity s = s := by
  simp [serializeToBuf, h]

lemma telemetryPayload_length (numStr : ℚ → String) (s : Snapshot) :
    (telemetryPayload numStr s).length =
      61 + (numStr s.voltage).length + (numStr s.current).length +
        (numStr s.power).length + (numStr s.energy).length +
        (numStr s.frequency).length + (numStr s.pf).length := by
  have l1 : ("\x7b\"voltage\":" : String).length = 11 := by decide
  have l2 : (",\"current\":" : String).length = 11 := by decide
  have l3 : (",\"power\":" : String).length = 9 := by decide
  have l4 : (",\"energy\":" : String).length = 10 := by decide
  have l5 : (",\"frequency\":" : String).length = 13 := by decide
  have l6 : (",\"pf\":" : String).length = 6 := by decide
  have l7 : ("\x7d" : String).length = 1 := by decide
  simp only [telemetryPayload, String.length_append, l1, l2, l3, l4, l5, l6, l7]
  omega

lemma attemptsIn_append (a b : List Ev) :
    attemptsIn (a ++ b) = attemptsIn a + attemptsIn b := by
  unfold attemptsIn
  exact List.countP_append _ _ _

lemma attemptsIn_fail_flatten (n : Nat) :
    attemptsIn ((List.replicate n [Ev.connAttempt false, Ev.delay 5000]).flatten) = n := by
  induction n with
  | zero => rfl
  | succ k ih =>
    rw [List.replicate_succ, List.flatten_cons]
    have hb : attemptsIn [Ev.connAttempt false, Ev.delay 5000] = 1 := by decide
    rw [show ([Ev.connAttempt false, Ev.delay 5000] ++
        (List.replicate k [Ev.connAttempt false, Ev.delay 5000]).flatten) =
      [Ev.connAttempt false, Ev.delay 5000] ++
        (List.replicate k [Ev.connAttempt false, Ev.delay 5000]).flatten from rfl]
    rw [attemptsIn_append, hb, ih]
    omega

lemma count_delay_fail_flatten (n : Nat) :
    ((List.replicate n [Ev.connAttempt false, Ev.delay 5000]).flatten).count
      (Ev.delay 5000) = n := by
  induction n with
  | zero => rfl
  | succ k ih =>
    rw [List.replicate_succ, List.flatten_cons, List.count_append, ih]
    have hb : List.count (Ev.delay 5000) [Ev.connAttempt false, Ev.delay 5000] = 1 := by
      decide
    rw [hb]
    omega

/-! ## Claim theorems -/

lemma sanitize_split (x : FVal) :
    (x = FVal.nan ∧ sanitize x = 0) ∨ x = FVal.num (sanitize x) := by
  cases x with
  | nan => exact Or.inl ⟨rfl, rfl⟩
  | num q => exact Or.inr rfl

/-- C1: in the Snapshot built by the telemetry tick (lines 97-102), each of
the six fields equals 0 when the corresponding sensor value is not-a-number
and equals the sensor value unchanged otherwise; Scenario 1 of the spec
evaluates exactly as stated. -/
theorem c1_snapshot_sanitization (r : Reading) :
    ((r.voltage = FVal.nan ∧ (buildSnapshot r).voltage = 0) ∨
      r.voltage = FVal.num ((buildSnapshot r).voltage)) ∧
    ((r.current = FVal.nan ∧ (buildSnapshot r).current = 0) ∨
      r.current = FVal.num ((buildSnapshot r).current)) ∧
    ((r.power = FVal.nan ∧ (buildSnapshot r).power = 0) ∨
      r.power = FVal.num ((buildSnapshot r).power)) ∧
    ((r.energy = FVal.nan ∧ (buildSnapshot r).energy = 0) ∨
      r.energy = FVal.num ((buildSnapshot r).energy)) ∧
    ((r.frequency = FVal.nan ∧ (buildSnapshot r).frequency = 0) ∨
      r.frequency = FVal.num ((buildSnapshot r).frequency)) ∧
    ((r.pf = FVal.nan ∧ (buildSnapshot r).pf = 0) ∨
      r.pf = FVal.num ((buildSnapshot r).pf)) ∧
    buildSnapshot scenario1Reading = scenario1Snapshot :=
  ⟨sanitize_split r.voltage, sanitize_split r.current, sanitize_split r.power,
   sanitize_split r.energy, sanitize_split r.frequency, sanitize_split r.pf, rfl⟩

/-- C2 is false of the code: reconnect (lines 61-74) loops internally. With a
first failed attempt and a second successful one, a single ensureSession call
performs two connect attempts and returns Connected, never surfacing
Disconnected to its caller. -/
theorem c2_counterexample :
    (ensureSession disconnectedSt [false, true]).map
        (fun p => (p.1, attemptsIn p.2)) = some (connectedSt, 2) ∧
    ¬ (ensureSession disconnectedSt [false, true]).map
        (fun p => (p.1, attemptsIn p.2)) = some (disconnectedSt, 1) := by
  constructor <;> decide

/-- C2 (amended): a call to ensureSession while Disconnected retries
connect+subscribe in an internal unbounded loop, waiting the fixed 5-time-unit
delay after every failure, and returns only once Connected; while every
attempt fails the call does not return at all, so the retry loop lives inside
reconnect rather than being driven by the Runner tick. With n leading
failures the call makes n+1 attempts and inserts n fixed delays. -/
theorem c2_session_retry_loop (n : Nat) (rest : List Bool) :
    ensureSession disconnectedSt (List.replicate n false) = none ∧
    ensureSession disconnectedSt (List.replicate n false ++ true :: rest) =
      some (connectedSt,
        (List.replicate n [Ev.connAttempt false, Ev.delay 5000]).flatten ++
          [Ev.connAttempt true, Ev.subscribe]) ∧
    attemptsIn
        ((List.replicate n [Ev.connAttempt false, Ev.delay 5000]).flatten ++
          [Ev.connAttempt true, Ev.subscribe]) = n + 1 ∧
    ((List.replicate n [Ev.connAttempt false, Ev.delay 5000]).flatten ++
        [Ev.connAttempt true, Ev.subscribe]).count (Ev.delay 5000) = n := by
  refine ⟨?_, ?_, ?_, ?_⟩
  · rw [ensureSession_disconnected disconnectedSt _ rfl]
    exact reconnectLoop_replicate_false n
  · rw [ensureSession_disconnected disconnectedSt _ rfl]
    exact reconnectLoop_success n rest
  · have h1 : attemptsIn [Ev.connAttempt true, Ev.subscribe] = 1 := by decide
    rw [attemptsIn_append, attemptsIn_fail_flatten, h1]
  · have h1 : List.count (Ev.delay 5000) [Ev.connAttempt true, Ev.subscribe] = 0 := by
      decide
    rw [List.count_append, count_delay_fail_flatten, h1]
    omega

/-- C3: command handling is side-effect-free on invalid input: whenever the
inbound bytes do not decode to a document whose reset member is the boolean
true (malformed input, missing key, or a non-true value), the callback
performs no sensor operation and no publish. -/
theorem c3_invalid_cmd_no_effects (st : ClientState) (payload : String)
    (h : isResetCmd payload = false) :
    callback st payload = [] := by
  unfold callback
  unfold isResetCmd at h
  cases hd : deserialize128 payload with
  | none => rfl
  | some d =>
    rw [hd] at h
    have h2 : docResetIsTrue d = false := h
    show (if docResetIsTrue d = true then
        Ev.resetEnergy :: (clientPublish st mqtt_pub_topic ackPayload).2
      else []) = []
    rw [h2]
    rfl

/-- Witness for C3 at Scenario 3 of the spec: the payload with reset false
produces no effect. -/
theorem c3_witness :
    isResetCmd scenario3Payload = false ∧
    callback disconnectedSt scenario3Payload = [] :=
  ⟨by decide, c3_invalid_cmd_no_effects disconnectedSt scenario3Payload (by decide)⟩

/-- C4: a payload decoding to a valid reset command makes the callback invoke
the sensor energy reset exactly once and then attempt the fixed acknowledgment
publish on the telemetry topic, in any session state; while Disconnected the
acknowledgment publish reports failure and nothing is delivered, with no
retry. -/
theorem c4_reset_cmd_effects (st : ClientState) (payload : String)
    (h : isResetCmd payload = true) :
    callback st payload =
      [Ev.resetEnergy, Ev.publish mqtt_pub_topic ackPayload st.connected] ∧
    (st.connected = false → deliveredOf (callback st payload) = []) := by
  unfold callback
  unfold isResetCmd at h
  cases hd : deserialize128 payload with
  | none =>
    rw [hd] at h
    exact Bool.noConfusion (show false = true from h)
  | some d =>
    rw [hd] at h
    have h2 : docResetIsTrue d = true := h
    constructor
    · show (if docResetIsTrue d = true then
          Ev.resetEnergy :: (clientPublish st mqtt_pub_topic ackPayload).2
        else []) =
        [Ev.resetEnergy, Ev.publish mqtt_pub_topic ackPayload st.connected]
      rw [h2]
      rfl
    · intro hc
      show deliveredOf
          (if docResetIsTrue d = true then
            Ev.resetEnergy :: (clientPublish st mqtt_pub_topic ackPayload).2
          else []) = []
      rw [h2]
      show deliveredOf
        (Ev.resetEnergy :: (clientPublish st mqtt_pub_topic ackPayload).2) = []
      unfold clientPublish
      rw [hc]
      rfl

/-- Witness for C4 at Scenario 2 and Scenario 5 of the spec: the valid reset
payload, received while Disconnected, still resets the sensor once, and the
acknowledgment publish fails and is not delivered. -/
theorem c4_witness :
    isResetCmd scenario2Payload = true ∧
    callback disconnectedSt scenario2Payload =
      [Ev.resetEnergy, Ev.publish mqtt_pub_topic ackPayload false] ∧
    deliveredOf (callback disconnectedSt scenario2Payload) = [] := by
  have h := c4_reset_cmd_effects disconnectedSt scenario2Payload (by decide)
  exact ⟨by decide, h.1, h.2 rfl⟩

/-- C5: Connected implies the command subscription is active: ensureSession
preserves the invariant, and every transition into Connected ends with the
connect-success and the subscribe in the same step, so no observation point
sees Connected without the subscription. -/
theorem c5_connected_implies_subscribed (st st' : ClientState)
    (outcomes : List Bool) (tr : List Ev)
    (hinv : st.connected = true → st.subscribed = true)
    (h : ensureSession st outcomes = some (st', tr)) :
    (st'.connected = true → st'.subscribed = true) ∧
    (st.connected = false →
      st' = connectedSt ∧
      tr.drop (tr.length - 2) = [Ev.connAttempt true, Ev.subscribe]) := by
  rcases ensureSession_some st outcomes st' tr h with
    ⟨hc, hst, htr⟩ | ⟨hc, hst, ⟨pre, hpre⟩, _, _⟩
  · subst hst
    exact ⟨hinv, fun hf => absurd hc (by rw [hf]; exact Bool.noConfusion)⟩
  · subst hst
    subst hpre
    exact ⟨fun _ => rfl, fun _ => ⟨rfl, drop_last_two pre _ _⟩⟩

/-- Witness for C5: a reconnect from Disconnected with an immediately
successful attempt ends Connected with the subscribe in the same step. -/
theorem c5_witness :
    (connectedSt.connected = true → connectedSt.subscribed = true) ∧
    ([Ev.connAttempt true, Ev.subscribe].drop
        ([Ev.connAttempt true, Ev.subscribe].length - 2) =
      [Ev.connAttempt true, Ev.subscribe]) := by
  have h := c5_connected_implies_subscribed disconnectedSt connectedSt [true]
      [Ev.connAttempt true, Ev.subscribe] (by decide) (by decide)
  exact ⟨h.1, (h.2 rfl).2⟩

/-- C6: the telemetry tick sends exactly one message and the encoding fits
the declared 192-byte buffer: with each of the six number renderings bounded
by 15 characters (the ArduinoJson bound for a binary32 float), the payload is
at most 151 bytes, the buffer write (payload plus NUL) stays within 192 bytes
with no truncation and no overflow, and the tick ends with that single
telemetry publish followed by the cadence delay. -/
theorem c6_telemetry_bounded (numStr : ℚ → String) (st st' : ClientState)
    (outcomes : List Bool) (inbox : List String) (r : Reading) (tr : List Ev)
    (h1 : (numStr (buildSnapshot r).voltage).length ≤ 15)
    (h2 : (numStr (buildSnapshot r).current).length ≤ 15)
    (h3 : (numStr (buildSnapshot r).power).length ≤ 15)
    (h4 : (numStr (buildSnapshot r).energy).length ≤ 15)
    (h5 : (numStr (buildSnapshot r).frequency).length ≤ 15)
    (h6 : (numStr (buildSnapshot r).pf).length ≤ 15)
    (h : loopTick numStr st outcomes inbox r = some (st', tr)) :
    (telemetryPayload numStr (buildSnapshot r)).length ≤ 151 ∧
    (serializeToBuf bufCapacity (telemetryPayload numStr (buildSnapshot r))).length + 1 ≤
      bufCapacity ∧
    serializeToBuf bufCapacity (telemetryPayload numStr (buildSnapshot r)) =
      telemetryPayload numStr (buildSnapshot r) ∧
    tr.drop (tr.length - 2) =
      [Ev.publish mqtt_pub_topic (telemetryPayload numStr (buildSnapshot r))
        st'.connected, Ev.delay 5000] ∧
    (tr.drop (tr.length - 2)).countP isPublishEv = 1 := by
  have hlen : (telemetryPayload numStr (buildSnapshot r)).length ≤ 151 := by
    rw [telemetryPayload_length]
    omega
  have hfit : (telemetryPayload numStr (buildSnapshot r)).length + 1 ≤ bufCapacity := by
    have : bufCapacity = 192 := rfl
    omega
  have hid := serializeToBuf_id (telemetryPayload numStr (buildSnapshot r)) hfit
  obtain ⟨evs1, _, htr⟩ := loopTick_inv numStr st outcomes inbox r st' tr h
  rw [hid] at htr
  have hdrop : tr.drop (tr.length - 2) =
      [Ev.publish mqtt_pub_topic (telemetryPayload numStr (buildSnapshot r))
        st'.connected, Ev.delay 5000] := by
    rw [htr]
    exact drop_last_two _ _ _
  refine ⟨hlen, ?_, hid, hdrop, ?_⟩
  · rw [hid]; exact hfit
  · rw [hdrop]
    simp [isPublishEv, List.countP_cons]

/-- Witness for C6 with the degenerate number renderer on the Scenario 1
reading: the payload fits and is not truncated. -/
theorem c6_witness :
    (telemetryPayload numStr0 (buildSnapshot scenario1Reading)).length ≤ 151 ∧
    serializeToBuf bufCapacity (telemetryPayload numStr0 (buildSnapshot scenario1Reading)) =
      telemetryPayload numStr0 (buildSnapshot scenario1Reading) := by
  have h := c6_telemetry_bounded numStr0 connectedSt connectedSt [] []
      scenario1Reading
      [Ev.publish mqtt_pub_topic
        (serializeToBuf bufCapacity
          (telemetryPayload numStr0 (buildSnapshot scenario1Reading))) true,
      Ev.delay 5000]
      (by decide) (by decide) (by decide) (by decide) (by decide) (by decide)
      (by rfl)
  exact ⟨h.1, h.2.2.1⟩

/-- C7 is false of the code: a full loop tick completes while containing no
link-establishment step at all; the blocking WiFi establishment happens only
in setup (lines 76-81), never per tick. -/
theorem c7_counterexample :
    loopTick numStr0 connectedSt [] [] scenario1Reading =
      some (connectedSt,
        [Ev.publish mqtt_pub_topic zeroPayload true, Ev.delay 5000]) ∧
    Ev.ensureLink ∉
      [Ev.publish mqtt_pub_topic zeroPayload true, Ev.delay 5000] := by
  constructor <;> decide

/-- C7 (amended): the link is established once, blocking, during setup; each
Runner tick then performs, in strict order, ensureSession, then servicing of
the inbound messages delivered since the last tick, then the single telemetry
publish followed by the cadence delay — with no per-tick link step — so
inbound command processing for a tick happens-before that tick's telemetry
publish. -/
theorem c7_tick_ordering (numStr : ℚ → String) (st st' : ClientState)
    (outcomes : List Bool) (inbox : List String) (r : Reading) (tr : List Ev)
    (h : loopTick numStr st outcomes inbox r = some (st', tr)) :
    setupTrace = [Ev.ensureLink] ∧
    Ev.ensureLink ∉ tr ∧
    (∃ evs1, ensureSession st outcomes = some (st', evs1) ∧
      tr = evs1 ++ (inbox.map (fun m => callback st' m)).flatten ++
        [Ev.publish mqtt_pub_topic
          (serializeToBuf bufCapacity (telemetryPayload numStr (buildSnapshot r)))
          st'.connected, Ev.delay 5000]) ∧
    tr.drop (tr.length - 2) =
      [Ev.publish mqtt_pub_topic
        (serializeToBuf bufCapacity (telemetryPayload numStr (buildSnapshot r)))
        st'.connected, Ev.delay 5000] ∧
    Ev.resetEnergy ∉ tr.drop (tr.length - 2) := by
  obtain ⟨evs1, hes, htr⟩ := loopTick_inv numStr st outcomes inbox r st' tr h
  have hdrop : tr.drop (tr.length - 2) =
      [Ev.publish mqtt_pub_topic
        (serializeToBuf bufCapacity (telemetryPayload numStr (buildSnapshot r)))
        st'.connected, Ev.delay 5000] := by
    rw [htr]
    exact drop_last_two _ _ _
  refine ⟨rfl, ?_, ⟨evs1, hes, htr⟩, hdrop, ?_⟩
  · rw [htr]
    intro hmem
    simp only [List.append_assoc, List.mem_append, List.mem_cons,
      List.not_mem_nil, or_false] at hmem
    rcases hmem with hm | hm | hm | hm
    · rcases ensureSession_some st outcomes st' evs1 hes with
        ⟨_, _, he⟩ | ⟨_, _, _, hnl, _⟩
      · rw [he] at hm; exact List.not_mem_nil _ hm
      · exact hnl hm
    · rcases inboundEvents_mem st' inbox Ev.ensureLink hm with hx | hx <;>
        exact Ev.noConfusion hx
    · exact Ev.noConfusion hm
    · exact Ev.noConfusion hm
  · rw [hdrop]
    intro hmem
    simp only [List.mem_cons, List.not_mem_nil, or_false] at hmem
    rcases hmem with hm | hm <;> exact Ev.noConfusion hm

/-- Witness for C7 (amended) on a concrete connected tick with an empty
inbox. -/
theorem c7_witness :
    Ev.ensureLink ∉
      [Ev.publish mqtt_pub_topic
        (serializeToBuf bufCapacity
          (telemetryPayload numStr0 (buildSnapshot scenario1Reading)))
        connectedSt.connected, Ev.delay 5000] := by
  have h := c7_tick_ordering numStr0 connectedSt connectedSt [] []
      scenario1Reading
      [Ev.publish mqtt_pub_topic
        (serializeToBuf bufCapacity
          (telemetryPayload numStr0 (buildSnapshot scenario1Reading)))
        connectedSt.connected, Ev.delay 5000]
      (by rfl)
  exact h.2.1

/-- C8: publish while Disconnected returns failure and delivers nothing to
the broker, at the publish operation itself, at the callback acknowledgment
call site, and for a tick that stays Disconnected, which publishes nothing at
all. -/
theorem c8_publish_disconnected (st : ClientState) (topic payload : String)
    (numStr : ℚ → String) (inbox : List String) (r : Reading) (n : Nat)
    (h : st.connected = false) :
    clientPublish st topic payload = (false, [Ev.publish topic payload false]) ∧
    deliveredOf (clientPublish st topic payload).2 = [] ∧
    deliveredOf (callback st payload) = [] ∧
    loopTick numStr st (List.replicate n false) inbox r = none := by
  refine ⟨?_, ?_, ?_, ?_⟩
  · simp [clientPublish, h]
  · simp [clientPublish, deliveredOf, h]
  · rcases callback_shape st payload with hs | hs <;> rw [hs] <;>
      simp [deliveredOf, h]
  · unfold loopTick
    rw [ensureSession_disconnected st _ h, reconnectLoop_replicate_false n]

/-- Witness for C8 at the Disconnected state. -/
theorem c8_witness :
    clientPublish disconnectedSt mqtt_pub_topic ackPayload =
      (false, [Ev.publish mqtt_pub_topic ackPayload false]) ∧
    loopTick numStr0 disconnectedSt (List.replicate 2 false) [] scenario1Reading =
      none := by
  have h := c8_publish_disconnected disconnectedSt mqtt_pub_topic ackPayload
      numStr0 [] scenario1Reading 2 rfl
  exact ⟨h.1, h.2.2.2⟩

/-- C9: while already Connected, ensureSession and reconnect are no-ops: the
state is unchanged and no subscribe, connect attempt or delay happens. -/
theorem c9_ensure_session_idempotent (st : ClientState) (outcomes : List Bool)
    (h : st.connected = true) :
    ensureSession st outcomes = some (st, []) ∧
    reconnect st outcomes = some (st, []) :=
  ⟨ensureSession_connected st outcomes h, by simp [reconnect, h]⟩

/-- Witness for C9 at the Connected state with pending failure outcomes that
are never consumed. -/
theorem c9_witness :
    ensureSession connectedSt [false, false] = some (connectedSt, []) ∧
    reconnect connectedSt [false, false] = some (connectedSt, []) :=
  c9_ensure_session_idempotent connectedSt [false, false] rfl

/-- C10: an inbound payload whose parsed representation exceeds the 128-byte
StaticJsonDocument capacity fails to deserialize and is silently ignored,
even if it textually contains the reset command: no sensor operation and no
publish. -/
theorem c10_oversized_payload_ignored (st : ClientState) (payload : String)
    (j : Json) (hp : parseJson payload = some j)
    (hm : docCapacity < memUsage j) :
    deserialize128 payload = none ∧ callback st payload = [] := by
  have hd : deserialize128 payload = none := by
    unfold deserialize128
    rw [hp]
    show (if memUsage j ≤ docCapacity then some j else none) = none
    rw [if_neg (Nat.not_le.mpr hm)]
  refine ⟨hd, ?_⟩
  unfold callback
  rw [hd]

/-- Witness for C10 at the oversized payload that textually contains the
reset command. -/
theorem c10_witness :
    parseJson bigPayload = some bigJson ∧
    docCapacity < memUsage bigJson ∧
    callback connectedSt bigPayload = [] := by
  have h := c10_oversized_payload_ignored connectedSt bigPayload bigJson rfl
      (by decide)
  exact ⟨rfl, by decide, h.2⟩
